import Mathlib

/-!
# Verification of the Neolix_edu CAN bus vehicle-factory orchestrator

Shallow embedding of `modules/canbus_vehicle/neolix_edu/neolix_edu_vehicle_factory.cc`.

The orchestrator's sub-components (CAN client, message manager, CAN
receiver/sender, vehicle controller, cyber node and writers) are external
collaborators. Their call results are supplied as Boolean oracles; the
orchestrator's own control flow is translated line by line from the source.
Null smart-pointer fields are modelled by Boolean presence flags, and a
dereference of a null pointer is modelled as a crash: the operation returns
`none` instead of a normal result. Each lifecycle operation additionally
returns the trace of sub-component calls it performed, in order, so that
ordering and short-circuit properties can be stated.
-/

namespace Neolix_eduVehicleFactory

/-- The sub-component calls performed by `Init`, in source order:
six fallible steps followed by unconditional channel registration. -/
inductive Step where
  | createCanClient
  | createMessageManager
  | initCanReceiver
  | initCanSender
  | createVehicleController
  | initVehicleController
  | registerChannels
  deriving DecidableEq, Repr

/-- Outcome oracle for the six fallible calls `Init` makes into its
collaborators, in the order the source performs them. -/
structure InitEnv where
  canClientOk : Bool
  messageManagerOk : Bool
  receiverInitOk : Bool
  senderInitOk : Bool
  controllerOk : Bool
  controllerInitOk : Bool
  deriving DecidableEq, Repr

/-- Outcome oracle for the four start calls performed by `Start`. -/
structure StartEnv where
  canClientStartOk : Bool
  receiverStartOk : Bool
  senderStartOk : Bool
  controllerStartOk : Bool
  deriving DecidableEq, Repr

/-- The orchestrator's state.  `canClient`, `messageManager`,
`vehicleController`, `node`, `recvWriter`, `senderWriter` model whether the
corresponding owned pointer field is non-null.  The `…Started` flags model
which sub-components are currently running.  The controller's latest
received and staged-for-send snapshots are modelled as natural numbers, the
two cyber channels as the lists of snapshots written to them.  `senderMsgs`
is the CAN sender's registered outgoing message set and `templates` the
vehicle controller's fixed set of outgoing message templates.  `commError`
is the controller's communication-error condition. -/
structure FactoryState where
  canClient : Bool
  messageManager : Bool
  vehicleController : Bool
  node : Bool
  recvWriter : Bool
  senderWriter : Bool
  canClientStarted : Bool
  receiverStarted : Bool
  senderStarted : Bool
  controllerStarted : Bool
  recvDetail : Nat
  senderDetail : Nat
  recvChannel : List Nat
  senderChannel : List Nat
  senderMsgs : List Nat
  templates : List Nat
  commError : Bool
  deriving DecidableEq, Repr

/-- The six fallible `Init` steps, in source order. -/
def fallibleSteps : List Step :=
  [Step.createCanClient, Step.createMessageManager, Step.initCanReceiver,
   Step.initCanSender, Step.createVehicleController, Step.initVehicleController]

/-- The full `Init` call sequence when every step succeeds. -/
def initSteps : List Step := fallibleSteps ++ [Step.registerChannels]

/-- Whether the oracle makes the j-th fallible `Init` step succeed. -/
def stepOk (env : InitEnv) : Fin 6 → Bool
  | ⟨0, _⟩ => env.canClientOk
  | ⟨1, _⟩ => env.messageManagerOk
  | ⟨2, _⟩ => env.receiverInitOk
  | ⟨3, _⟩ => env.senderInitOk
  | ⟨4, _⟩ => env.controllerOk
  | ⟨5, _⟩ => env.controllerInitOk

/-- `Neolix_eduVehicleFactory::Init`, translated step by step from the
source: create the CAN client, create the message manager, init the CAN
receiver, init the CAN sender, create the vehicle controller, init the
vehicle controller — each failure returns `false` at once — then create the
node and the two chassis-detail writers and return `true`.  Returns the
result, the state after the call, and the trace of steps executed. -/
def Init (env : InitEnv) (s : FactoryState) : Bool × FactoryState × List Step :=
  let s1 := { s with canClient := env.canClientOk }
  if !env.canClientOk then (false, s1, [Step.createCanClient])
  else
    let s2 := { s1 with messageManager := env.messageManagerOk }
    if !env.messageManagerOk then
      (false, s2, [Step.createCanClient, Step.createMessageManager])
    else if !env.receiverInitOk then
      (false, s2, [Step.createCanClient, Step.createMessageManager,
                   Step.initCanReceiver])
    else if !env.senderInitOk then
      (false, s2, [Step.createCanClient, Step.createMessageManager,
                   Step.initCanReceiver, Step.initCanSender])
    else
      let s3 := { s2 with vehicleController := env.controllerOk }
      if !env.controllerOk then
        (false, s3, [Step.createCanClient, Step.createMessageManager,
                     Step.initCanReceiver, Step.initCanSender,
                     Step.createVehicleController])
      else if !env.controllerInitOk then
        (false, s3, [Step.createCanClient, Step.createMessageManager,
                     Step.initCanReceiver, Step.initCanSender,
                     Step.createVehicleController, Step.initVehicleController])
      else
        (true, { s3 with node := true, recvWriter := true, senderWriter := true },
         initSteps)

/-- The four start calls performed by `Start`, in source order. -/
inductive StartStage where
  | startCanClient
  | startCanReceiver
  | startCanSender
  | startController
  deriving DecidableEq, Repr

/-- The full `Start` call sequence when every stage succeeds. -/
def startStages : List StartStage :=
  [StartStage.startCanClient, StartStage.startCanReceiver,
   StartStage.startCanSender, StartStage.startController]

/-- Whether the oracle makes the k-th start stage succeed. -/
def stageOk (env : StartEnv) : Fin 4 → Bool
  | ⟨0, _⟩ => env.canClientStartOk
  | ⟨1, _⟩ => env.receiverStartOk
  | ⟨2, _⟩ => env.senderStartOk
  | ⟨3, _⟩ => env.controllerStartOk

/-- `Neolix_eduVehicleFactory::Start`, translated from the source: start
the CAN client, the CAN receiver, the CAN sender, then the vehicle
controller, returning `false` at the first failing stage without touching
the later stages.  `can_client_->Start()` and `vehicle_controller_->Start()`
dereference owned pointers, so a null pointer there is a crash (`none`).
A stage that starts successfully is recorded as running. -/
def Start (env : StartEnv) (s : FactoryState) :
    Option (Bool × FactoryState × List StartStage) :=
  if !s.canClient then none
  else if !env.canClientStartOk then
    some (false, s, [StartStage.startCanClient])
  else
    let s1 := { s with canClientStarted := true }
    if !env.receiverStartOk then
      some (false, s1, [StartStage.startCanClient, StartStage.startCanReceiver])
    else
      let s2 := { s1 with receiverStarted := true }
      if !env.senderStartOk then
        some (false, s2, [StartStage.startCanClient, StartStage.startCanReceiver,
                          StartStage.startCanSender])
      else
        let s3 := { s2 with senderStarted := true }
        if !s.vehicleController then none
        else if !env.controllerStartOk then
          some (false, s3, startStages)
        else
          some (true, { s3 with controllerStarted := true }, startStages)

/-- The four stop calls performed by `Stop`, in source order. -/
inductive StopStage where
  | stopCanSender
  | stopCanReceiver
  | stopCanClient
  | stopController
  deriving DecidableEq, Repr

/-- The full `Stop` call sequence. -/
def stopStages : List StopStage :=
  [StopStage.stopCanSender, StopStage.stopCanReceiver,
   StopStage.stopCanClient, StopStage.stopController]

/-- `Neolix_eduVehicleFactory::Stop`, translated from the source: stop the
CAN sender, the CAN receiver, the CAN client, then the vehicle controller,
unconditionally and in that order; the function returns no status (`void`
in the source), so no failure can be propagated.  `can_client_->Stop()` and
`vehicle_controller_->Stop()` dereference owned pointers, so a null pointer
there is a crash (`none`).  Each sub-stop leaves its component not running
(modelled from the spec: the collaborators' `stop()` calls quiesce them). -/
def Stop (s : FactoryState) : Option (FactoryState × List StopStage) :=
  let s1 := { s with senderStarted := false }
  let s2 := { s1 with receiverStarted := false }
  if !s.canClient then none
  else
    let s3 := { s2 with canClientStarted := false }
    if !s.vehicleController then none
    else
      some ({ s3 with controllerStarted := false }, stopStages)

/-- A command handed to `UpdateCommand`: the source has two overloads, one
for `apollo::control::ControlCommand` and one for
`apollo::external_command::ChassisCommand`, with identical bodies. -/
inductive Command where
  | control (payload : Nat)
  | chassis (payload : Nat)
  deriving DecidableEq, Repr

/-- `Neolix_eduVehicleFactory::UpdateCommand`, both overloads, translated
from the source: call `vehicle_controller_->Update(cmd)` (its result is the
oracle `updateOk`); on non-OK log and return without queuing anything; on
OK call `can_sender_.Update()` once.  The returned number counts the
`can_sender_.Update()` flush calls performed.  The controller dereference
crashes (`none`) on a null controller. -/
def UpdateCommand (updateOk : Bool) (cmd : Command) (s : FactoryState) :
    Option (FactoryState × Nat) :=
  if !s.vehicleController then none
  else if !updateOk then some (s, 0)
  else some (s, 1)

/-- Modelled from the spec: the vehicle controller's
`GetNewRecvChassisDetail()` (not under src/) returns the latest received
raw snapshot held by the controller. -/
def GetNewRecvChassisDetail (s : FactoryState) : Nat := s.recvDetail

/-- Modelled from the spec: the vehicle controller's
`GetNewSenderChassisDetail()` (not under src/) returns the latest
staged-for-send snapshot held by the controller. -/
def GetNewSenderChassisDetail (s : FactoryState) : Nat := s.senderDetail

/-- `Neolix_eduVehicleFactory::PublishChassisDetail`, translated from the
source: read `vehicle_controller_->GetNewRecvChassisDetail()` and write it
with `chassis_detail_writer_`.  Dereferencing a null controller or writer
is a crash (`none`). -/
def PublishChassisDetail (s : FactoryState) : Option FactoryState :=
  if !s.vehicleController then none
  else if !s.recvWriter then none
  else some { s with recvChannel := s.recvChannel ++ [GetNewRecvChassisDetail s] }

/-- `Neolix_eduVehicleFactory::PublishChassisDetailSender`, translated from
the source: read `vehicle_controller_->GetNewSenderChassisDetail()` and
write it with `chassis_detail_sender_writer_`. -/
def PublishChassisDetailSender (s : FactoryState) : Option FactoryState :=
  if !s.vehicleController then none
  else if !s.senderWriter then none
  else some { s with senderChannel := s.senderChannel ++ [GetNewSenderChassisDetail s] }

/-- Modelled from the spec: the vehicle controller's
`CheckChassisCommunicationError()` (not under src/) detects loss of
expected periodic frames; it is purely observational, a function of the
controller state with no mutation. -/
def CheckChassisCommunicationError (s : FactoryState) : Bool := s.commError

/-- `Neolix_eduVehicleFactory::CheckChassisCommunicationFault`, translated
from the source: `if (vehicle_controller_->CheckChassisCommunicationError())
return true; return false;`.  Returns the result with the (unchanged)
state; a null controller dereference is a crash. -/
def CheckChassisCommunicationFault (s : FactoryState) : Option (Bool × FactoryState) :=
  if !s.vehicleController then none
  else if CheckChassisCommunicationError s then some (true, s)
  else some (false, s)

/-- Modelled from the spec: the vehicle controller's `AddSendMessage()`
(not under src/) re-registers the controller's fixed set of outgoing
message templates with the CAN sender. -/
def AddSendMessage (s : FactoryState) : FactoryState :=
  { s with senderMsgs := s.senderMsgs ++ s.templates }

/-- `Neolix_eduVehicleFactory::AddSendProtocol`, translated from the
source: `vehicle_controller_->AddSendMessage();` — a null controller
dereference is a crash. -/
def AddSendProtocol (s : FactoryState) : Option FactoryState :=
  if !s.vehicleController then none
  else some (AddSendMessage s)

/-- `Neolix_eduVehicleFactory::ClearSendProtocol`, translated from the
source: `can_sender_.ClearMessage();` empties the sender's registered
message set (`can_sender_` is a member object, no dereference). -/
def ClearSendProtocol (s : FactoryState) : FactoryState :=
  { s with senderMsgs := [] }

/-- `Neolix_eduVehicleFactory::IsSendProtocolClear`, translated from the
source: `if (can_sender_.IsMessageClear()) return true; return false;` —
true iff the sender's registered message set is empty. -/
def IsSendProtocolClear (s : FactoryState) : Bool := s.senderMsgs.isEmpty

/-- The sender's registered message set consists of zero or more
re-registrations of the controller's template set: every message in it got
there through `AddSendMessage`. -/
inductive MsgsFrom (t : List Nat) : List Nat → Prop
  | nil : MsgsFrom t []
  | add (m : List Nat) (h : MsgsFrom t m) : MsgsFrom t (m ++ t)

/-- No sub-component of the orchestrator is running. -/
def noneStarted (s : FactoryState) : Bool :=
  !s.canClientStarted && !s.receiverStarted && !s.senderStarted &&
    !s.controllerStarted

/-- The state after the stages strictly before the k-th `Start` stage have
been started successfully: exactly those stages are marked running, all
other fields are untouched. -/
def markStartedUpTo (s : FactoryState) : Fin 4 → FactoryState
  | ⟨0, _⟩ => s
  | ⟨1, _⟩ => { s with canClientStarted := true }
  | ⟨2, _⟩ => { s with canClientStarted := true, receiverStarted := true }
  | ⟨3, _⟩ => { s with canClientStarted := true, receiverStarted := true,
                       senderStarted := true }

/-- The controller's snapshots after its state changed mid-tick: the latest
received snapshot is now `a` and the latest staged-for-send snapshot `b`. -/
def setControllerDetails (s : FactoryState) (a b : Nat) : FactoryState :=
  { s with recvDetail := a, senderDetail := b }

/-- A default-constructed orchestrator: every owned pointer null, nothing
started, nothing registered, channels empty. -/
def initialState : FactoryState :=
  { canClient := false, messageManager := false, vehicleController := false,
    node := false, recvWriter := false, senderWriter := false,
    canClientStarted := false, receiverStarted := false,
    senderStarted := false, controllerStarted := false,
    recvDetail := 0, senderDetail := 0, recvChannel := [], senderChannel := [],
    senderMsgs := [], templates := [], commError := false }

/-- A fully initialized orchestrator state: every component present, one
template registered with the sender, nothing yet running. -/
def readyState : FactoryState :=
  { canClient := true, messageManager := true, vehicleController := true,
    node := true, recvWriter := true, senderWriter := true,
    canClientStarted := false, receiverStarted := false,
    senderStarted := false, controllerStarted := false,
    recvDetail := 1, senderDetail := 2, recvChannel := [], senderChannel := [],
    senderMsgs := [5], templates := [5], commError := false }

theorem msgsFrom_templates_ne_nil {t m : List Nat} (h : MsgsFrom t m)
    (hm : m ≠ []) : t ≠ [] := by
  induction h with
  | nil => exact absurd rfl hm
  | add m' _ ih =>
    intro ht
    exact ih (by simpa [ht] using hm) ht

/-- Claim C1: for every configuration and starting state, if the j-th of
the six fallible `Init` steps fails while every earlier step succeeds, then
`Init` returns false and the executed call trace is exactly the steps up to
and including the failing one — no step after the failing one executes. -/
theorem Init_first_failure_short_circuits (env : InitEnv) (s : FactoryState)
    (j : Fin 6) (hfail : stepOk env j = false)
    (hbefore : ∀ i : Fin 6, i < j → stepOk env i = true) :
    (Init env s).1 = false ∧
      (Init env s).2.2 = fallibleSteps.take (j.val + 1) := by
  obtain ⟨b1, b2, b3, b4, b5, b6⟩ := env
  fin_cases j
  · simp only [stepOk] at hfail
    subst hfail
    exact ⟨rfl, rfl⟩
  · have h0 := hbefore 0 (by decide)
    simp only [stepOk] at hfail h0
    subst hfail; subst h0
    exact ⟨rfl, rfl⟩
  · have h0 := hbefore 0 (by decide)
    have h1 := hbefore 1 (by decide)
    simp only [stepOk] at hfail h0 h1
    subst hfail; subst h0; subst h1
    exact ⟨rfl, rfl⟩
  · have h0 := hbefore 0 (by decide)
    have h1 := hbefore 1 (by decide)
    have h2 := hbefore 2 (by decide)
    simp only [stepOk] at hfail h0 h1 h2
    subst hfail; subst h0; subst h1; subst h2
    exact ⟨rfl, rfl⟩
  · have h0 := hbefore 0 (by decide)
    have h1 := hbefore 1 (by decide)
    have h2 := hbefore 2 (by decide)
    have h3 := hbefore 3 (by decide)
    simp only [stepOk] at hfail h0 h1 h2 h3
    subst hfail; subst h0; subst h1; subst h2; subst h3
    exact ⟨rfl, rfl⟩
  · have h0 := hbefore 0 (by decide)
    have h1 := hbefore 1 (by decide)
    have h2 := hbefore 2 (by decide)
    have h3 := hbefore 3 (by decide)
    have h4 := hbefore 4 (by decide)
    simp only [stepOk] at hfail h0 h1 h2 h3 h4
    subst hfail; subst h0; subst h1; subst h2; subst h3; subst h4
    exact ⟨rfl, rfl⟩

theorem Init_first_failure_short_circuits_witness :
    stepOk ⟨true, true, false, true, true, true⟩ 2 = false ∧
      (∀ i : Fin 6, i < 2 → stepOk ⟨true, true, false, true, true, true⟩ i = true) ∧
      (Init ⟨true, true, false, true, true, true⟩ initialState).1 = false ∧
      (Init ⟨true, true, false, true, true, true⟩ initialState).2.2 =
        fallibleSteps.take 3 :=
  ⟨by decide, by decide,
   Init_first_failure_short_circuits ⟨true, true, false, true, true, true⟩
     initialState 2 (by decide) (by decide)⟩

/-- Claim C10: once all six fallible `Init` steps succeed, `Init` returns
true, and its trace is the full step list: the final node/channel
registration step executes and has no failure branch, so it cannot cause
`Init` to return false. -/
theorem Init_all_ok_returns_true (env : InitEnv) (s : FactoryState)
    (h : ∀ j : Fin 6, stepOk env j = true) :
    (Init env s).1 = true ∧ (Init env s).2.2 = initSteps := by
  obtain ⟨b1, b2, b3, b4, b5, b6⟩ := env
  have h0 := h 0
  have h1 := h 1
  have h2 := h 2
  have h3 := h 3
  have h4 := h 4
  have h5 := h 5
  simp only [stepOk] at h0 h1 h2 h3 h4 h5
  subst h0; subst h1; subst h2; subst h3; subst h4; subst h5
  exact ⟨rfl, rfl⟩

theorem Init_all_ok_returns_true_witness :
    (∀ j : Fin 6, stepOk ⟨true, true, true, true, true, true⟩ j = true) ∧
      (Init ⟨true, true, true, true, true, true⟩ initialState).1 = true ∧
      (Init ⟨true, true, true, true, true, true⟩ initialState).2.2 = initSteps :=
  ⟨by decide,
   Init_all_ok_returns_true ⟨true, true, true, true, true, true⟩ initialState
     (by decide)⟩

/-- Claim C5: when `Init` fails (returns false), no partial wiring is left
running in the orchestrator's state: `Init` starts no sub-component, so if
nothing was running before the call, nothing is running after it. -/
theorem Init_failure_leaves_nothing_running (env : InitEnv) (s : FactoryState)
    (hres : (Init env s).1 = false) (hidle : noneStarted s = true) :
    noneStarted (Init env s).2.1 = true := by
  obtain ⟨b1, b2, b3, b4, b5, b6⟩ := env
  cases b1 <;> cases b2 <;> cases b3 <;> cases b4 <;> cases b5 <;> cases b6 <;>
    simp_all [Init, noneStarted]

theorem Init_failure_leaves_nothing_running_witness :
    (Init ⟨true, true, true, false, true, true⟩ initialState).1 = false ∧
      noneStarted initialState = true ∧
      noneStarted (Init ⟨true, true, true, false, true, true⟩ initialState).2.1 =
        true :=
  ⟨by decide, by decide,
   Init_failure_leaves_nothing_running ⟨true, true, true, false, true, true⟩
     initialState (by decide) (by decide)⟩

/-- Claim C2: with all components present, `Start` attempts the four stages
in the order CAN client (transport), receive loop, send loop, vehicle
controller; if the k-th stage is the first to fail, `Start` returns false,
its trace is exactly the stages up to and including the failing one (no
later stage is attempted), and the resulting state is the input state with
precisely the stages before the failing one marked running — stages started
before the failure are left running. -/
theorem Start_order_and_short_circuit (env : StartEnv) (s : FactoryState)
    (hc : s.canClient = true) (hv : s.vehicleController = true)
    (k : Fin 4) (hfail : stageOk env k = false)
    (hbefore : ∀ i : Fin 4, i < k → stageOk env i = true) :
    Start env s = some (false, markStartedUpTo s k, startStages.take (k.val + 1)) := by
  obtain ⟨c1, c2, c3, c4⟩ := env
  fin_cases k
  · simp only [stageOk] at hfail
    subst hfail
    simp [Start, markStartedUpTo, startStages, hc]
  · have h0 := hbefore 0 (by decide)
    simp only [stageOk] at hfail h0
    subst hfail; subst h0
    simp [Start, markStartedUpTo, startStages, hc]
  · have h0 := hbefore 0 (by decide)
    have h1 := hbefore 1 (by decide)
    simp only [stageOk] at hfail h0 h1
    subst hfail; subst h0; subst h1
    simp [Start, markStartedUpTo, startStages, hc]
  · have h0 := hbefore 0 (by decide)
    have h1 := hbefore 1 (by decide)
    have h2 := hbefore 2 (by decide)
    simp only [stageOk] at hfail h0 h1 h2
    subst hfail; subst h0; subst h1; subst h2
    simp [Start, markStartedUpTo, startStages, hc, hv]

theorem Start_order_and_short_circuit_witness :
    readyState.canClient = true ∧ readyState.vehicleController = true ∧
      stageOk ⟨true, true, false, true⟩ 2 = false ∧
      (∀ i : Fin 4, i < 2 → stageOk ⟨true, true, false, true⟩ i = true) ∧
      Start ⟨true, true, false, true⟩ readyState =
        some (false, markStartedUpTo readyState 2, startStages.take 3) :=
  ⟨by decide, by decide, by decide, by decide,
   Start_order_and_short_circuit ⟨true, true, false, true⟩ readyState
     (by decide) (by decide) 2 (by decide) (by decide)⟩

/-- Claim C6 counterexample: calling `Start` on a default-constructed
orchestrator (all sub-component pointers null) does not return false: the
very first statement, `can_client_->Start()`, dereferences the null
transport pointer, modelled as a crash (`none`), so no boolean result is
ever produced. -/
theorem Start_before_init_crashes_cex :
    Start ⟨true, true, true, true⟩ initialState = none := rfl

/-- Claim C6 (amended): if `Start` is called while the transport
sub-component is null (i.e. before a successful `Init`), the code
dereferences the null transport pointer and crashes (modelled as `none`)
instead of deterministically returning false. -/
theorem Start_null_transport_crashes (env : StartEnv) (s : FactoryState)
    (h : s.canClient = false) : Start env s = none := by
  simp [Start, h]

theorem Start_null_transport_crashes_witness :
    initialState.canClient = false ∧
      Start ⟨false, false, false, false⟩ initialState = none :=
  ⟨by decide,
   Start_null_transport_crashes ⟨false, false, false, false⟩ initialState
     (by decide)⟩

/-- Claim C4: with the owned components present, `Stop` always performs the
four sub-stops in the order send loop, receive loop, transport, vehicle
controller; it returns no status (so no failure can propagate to the
caller), it leaves no sub-component running — regardless of which stages
`Start` had managed to start — and calling it again on the resulting state
performs the same sequence again without any propagated error. -/
theorem Stop_order_idempotent (s : FactoryState)
    (hc : s.canClient = true) (hv : s.vehicleController = true) :
    ∃ s2, Stop s = some (s2, stopStages) ∧ noneStarted s2 = true ∧
      Stop s2 = some (s2, stopStages) := by
  simp [Stop, noneStarted, hc, hv]

theorem Stop_order_idempotent_witness :
    readyState.canClient = true ∧ readyState.vehicleController = true ∧
      ∃ s2, Stop readyState = some (s2, stopStages) ∧ noneStarted s2 = true ∧
        Stop s2 = some (s2, stopStages) :=
  ⟨by decide, by decide, Stop_order_idempotent readyState (by decide) (by decide)⟩

/-- Claim C3: for both command variants, when the controller's `Update`
returns non-OK, `UpdateCommand` returns with zero `can_sender_.Update()`
flush calls (no frame queued); when `Update` returns OK, it performs the
flush exactly once. -/
theorem UpdateCommand_flush_iff_update_ok (cmd : Command) (s : FactoryState)
    (hv : s.vehicleController = true) :
    UpdateCommand false cmd s = some (s, 0) ∧
      UpdateCommand true cmd s = some (s, 1) := by
  simp [UpdateCommand, hv]

theorem UpdateCommand_flush_iff_update_ok_witness :
    readyState.vehicleController = true ∧
      (UpdateCommand false (Command.control 7) readyState = some (readyState, 0) ∧
        UpdateCommand true (Command.control 7) readyState = some (readyState, 1)) ∧
      (UpdateCommand false (Command.chassis 9) readyState = some (readyState, 0) ∧
        UpdateCommand true (Command.chassis 9) readyState = some (readyState, 1)) :=
  ⟨by decide,
   UpdateCommand_flush_iff_update_ok (Command.control 7) readyState (by decide),
   UpdateCommand_flush_iff_update_ok (Command.chassis 9) readyState (by decide)⟩

/-- Claim C8: with the controller present,
`CheckChassisCommunicationFault` returns exactly the result of the
controller's communication-error check — true precisely when loss of
expected periodic frames is reported — and returns the state unchanged:
the call mutates no orchestrator or controller state. -/
theorem CheckChassisCommunicationFault_observational (s : FactoryState)
    (hv : s.vehicleController = true) :
    CheckChassisCommunicationFault s =
      some (CheckChassisCommunicationError s, s) := by
  cases h : CheckChassisCommunicationError s <;>
    simp [CheckChassisCommunicationFault, hv, h]

theorem CheckChassisCommunicationFault_observational_witness :
    readyState.vehicleController = true ∧
      CheckChassisCommunicationFault readyState =
        some (CheckChassisCommunicationError readyState, readyState) :=
  ⟨by decide, CheckChassisCommunicationFault_observational readyState (by decide)⟩

/-- Claim C9: with the controller and both writers present,
`PublishChassisDetail` followed by `PublishChassisDetailSender` — even with
the controller's snapshots changing to arbitrary values `a`, `b` between
the two calls — appends the received snapshot read at the first call to the
received-state channel and the staged-for-send snapshot read at the second
call to the sender-state channel: two distinct channels, each receiving its
own snapshot, with no cross-contamination. -/
theorem Publish_no_cross_contamination (s : FactoryState) (a b : Nat)
    (hv : s.vehicleController = true) (hr : s.recvWriter = true)
    (hw : s.senderWriter = true) :
    ∃ s1 s3, PublishChassisDetail s = some s1 ∧
      PublishChassisDetailSender (setControllerDetails s1 a b) = some s3 ∧
      s3.recvChannel = s.recvChannel ++ [s.recvDetail] ∧
      s3.senderChannel = s.senderChannel ++ [b] := by
  simp [PublishChassisDetail, PublishChassisDetailSender,
    GetNewRecvChassisDetail, GetNewSenderChassisDetail,
    setControllerDetails, hv, hr, hw]

theorem Publish_no_cross_contamination_witness :
    readyState.vehicleController = true ∧ readyState.recvWriter = true ∧
      readyState.senderWriter = true ∧
      ∃ s1 s3, PublishChassisDetail readyState = some s1 ∧
        PublishChassisDetailSender (setControllerDetails s1 3 4) = some s3 ∧
        s3.recvChannel = readyState.recvChannel ++ [readyState.recvDetail] ∧
        s3.senderChannel = readyState.senderChannel ++ [4] :=
  ⟨by decide, by decide, by decide,
   Publish_no_cross_contamination readyState 3 4 (by decide) (by decide)
     (by decide)⟩

/-- Claim C7: with the controller present, in every state whose sender
message set was populated by the controller's template registrations and is
currently non-empty, `IsSendProtocolClear` is true immediately after
`ClearSendProtocol`, and false immediately after a subsequent
`AddSendProtocol` (which re-registers the controller's necessarily
non-empty template set). -/
theorem ClearSendProtocol_then_AddSendProtocol (s : FactoryState)
    (hv : s.vehicleController = true)
    (hfrom : MsgsFrom s.templates s.senderMsgs)
    (hne : s.senderMsgs ≠ []) :
    IsSendProtocolClear (ClearSendProtocol s) = true ∧
      ∃ s2, AddSendProtocol (ClearSendProtocol s) = some s2 ∧
        IsSendProtocolClear s2 = false := by
  have ht : s.templates ≠ [] := msgsFrom_templates_ne_nil hfrom hne
  simp [IsSendProtocolClear, ClearSendProtocol, AddSendProtocol,
    AddSendMessage, hv, List.isEmpty_iff, ht]

theorem ClearSendProtocol_then_AddSendProtocol_witness :
    readyState.vehicleController = true ∧
      MsgsFrom readyState.templates readyState.senderMsgs ∧
      readyState.senderMsgs ≠ [] ∧
      (IsSendProtocolClear (ClearSendProtocol readyState) = true ∧
        ∃ s2, AddSendProtocol (ClearSendProtocol readyState) = some s2 ∧
          IsSendProtocolClear s2 = false) :=
  ⟨by decide, MsgsFrom.add [] MsgsFrom.nil, by decide,
   ClearSendProtocol_then_AddSendProtocol readyState (by decide)
     (MsgsFrom.add [] MsgsFrom.nil) (by decide)⟩

end Neolix_eduVehicleFactory
